import Mathlib

/-!
Shallow embedding of the EBS cleanup Lambda (src/src/app.py).

Time is modelled as seconds since an epoch (Int).  Python's repeated
calls to datetime.now are modelled by a clock: a stream of sampled
instants indexed by how many times now() has been called so far; every
function that samples the clock threads the next sample index through.
The EC2 service is modelled as an explicit state: the volumes and
snapshots it would list, the outcome of each per-id API call, and
optional listing failures (a raised ClientError during pagination).
-/

/-- One sampled instant per call of datetime.now(timezone.utc). -/
abbrev Clock := Nat → Int

/-- Seconds in a day: timedelta(days = d) is d * 86400 seconds. -/
def secondsPerDay : Int := 86400

/-- botocore ClientError, identified by its error code string. -/
structure ClientError where
  code : String
deriving DecidableEq

/-- A volume as returned by describe_volumes pages. -/
structure Volume where
  volumeId : String
  size : Nat
  createTime : Int
  status : String
deriving DecidableEq

/-- A snapshot as returned by describe_snapshots pages.  volumeId is the
optional origin-volume id (absent for orphaned snapshots). -/
structure Snapshot where
  snapshotId : String
  volumeId : Option String
  startTime : Int
  description : Option String
deriving DecidableEq

/-- The EC2 service as observed by one run: listings, per-id lookup of a
volume's State (describe_volumes(VolumeIds=[id])), and the outcome of each
delete call (none = success, some e = raised ClientError e). -/
structure EC2State where
  volumes : List Volume
  snapshots : List Snapshot
  describeVolumesErr : Option ClientError
  describeSnapshotsErr : Option ClientError
  lookupVolume : String → Except ClientError String
  deleteVolumeResult : String → Option ClientError
  deleteSnapshotResult : String → Option ClientError

/-- EBSCleaner: its only state is the retention_days field. -/
structure EBSCleaner where
  retention_days : Int

/-- EBSCleaner.__init__ hard-codes retention_days = 7 (app.py line 27). -/
def EBSCleaner.init : EBSCleaner := ⟨7⟩

/-- Entry of the volumes_to_delete list built at app.py lines 75-80. -/
structure VolRec where
  volumeId : String
  size : Nat
  age : Int
deriving DecidableEq

/-- Entry of the snapshots_to_delete list built at app.py lines 106-115. -/
structure SnapRec where
  snapshotId : String
  volumeId : Option String
  age : Int
  description : String
deriving DecidableEq

/-- The pagination loop of get_volumes_to_delete (app.py lines 68-80):
append a record for every volume whose CreateTime is strictly before the
retention date; the Age field samples now() again for each appended
volume.  Returns the records and the next clock index. -/
def volFilterLoop (clock : Clock) (rd : Int) :
    List Volume → Nat → List VolRec × Nat
  | [], i => ([], i)
  | v :: vs, i =>
    if v.createTime < rd then
      let rest := volFilterLoop clock rd vs (i + 1)
      (⟨v.volumeId, v.size, (clock i - v.createTime) / secondsPerDay⟩ :: rest.1,
        rest.2)
    else
      volFilterLoop clock rd vs i

/-- get_volumes_to_delete (app.py lines 54-86): samples now() once for the
retention date, lists volumes server-side filtered on status available,
and keeps those strictly older than the retention date.  A ClientError
during pagination is logged and re-raised. -/
def get_volumes_to_delete (c : EBSCleaner) (clock : Clock) (i : Nat)
    (st : EC2State) : Except ClientError (List VolRec × Nat) :=
  let rd := clock i - c.retention_days * secondsPerDay
  match st.describeVolumesErr with
  | some e => .error e
  | none =>
    .ok (volFilterLoop clock rd
      (st.volumes.filter (fun v => v.status == "available")) (i + 1))

/-- EBSCleaner._should_delete_snapshot (app.py lines 123-150): no (falsy)
volume id → True; otherwise look the volume up: State available → True,
any other State → False; ClientError InvalidVolume.NotFound → True; any
other ClientError re-raised. -/
def should_delete_snapshot (st : EC2State) (snap : Snapshot) :
    Except ClientError Bool :=
  match snap.volumeId with
  | none => .ok true
  | some vid =>
    if vid = "" then .ok true
    else
      match st.lookupVolume vid with
      | .ok state => .ok (state == "available")
      | .error err =>
        if err.code = "InvalidVolume.NotFound" then .ok true else .error err

/-- The pagination loop of get_snapshots_to_delete (app.py lines 102-115):
for each snapshot strictly older than the retention date, consult
_should_delete_snapshot; an error there propagates.  The Age field samples
now() again for each appended snapshot. -/
def snapFilterLoop (st : EC2State) (clock : Clock) (rd : Int) :
    List Snapshot → Nat → Except ClientError (List SnapRec × Nat)
  | [], i => .ok ([], i)
  | s :: ss, i =>
    if s.startTime < rd then
      match should_delete_snapshot st s with
      | .error e => .error e
      | .ok true =>
        match snapFilterLoop st clock rd ss (i + 1) with
        | .error e => .error e
        | .ok rest =>
          .ok (⟨s.snapshotId, s.volumeId, (clock i - s.startTime) / secondsPerDay,
            s.description.getD "No description"⟩ :: rest.1, rest.2)
      | .ok false => snapFilterLoop st clock rd ss i
    else
      snapFilterLoop st clock rd ss i

/-- get_snapshots_to_delete (app.py lines 88-121): samples now() once for
the retention date, lists the account's snapshots, filters by age then by
_should_delete_snapshot.  Any ClientError is logged and re-raised. -/
def get_snapshots_to_delete (c : EBSCleaner) (clock : Clock) (i : Nat)
    (st : EC2State) : Except ClientError (List SnapRec × Nat) :=
  let rd := clock i - c.retention_days * secondsPerDay
  match st.describeSnapshotsErr with
  | some e => .error e
  | none => snapFilterLoop st clock rd st.snapshots (i + 1)

/-- delete_volumes (app.py lines 152-173): attempts each delete; a
ClientError is logged (error level) and the loop continues.  Observable
outcome: (ids deleted, ids whose delete raised). -/
def delete_volumes (st : EC2State) :
    List VolRec → List String × List String
  | [] => ([], [])
  | v :: vs =>
    let rest := delete_volumes st vs
    match st.deleteVolumeResult v.volumeId with
    | none => (v.volumeId :: rest.1, rest.2)
    | some _ => (rest.1, v.volumeId :: rest.2)

/-- delete_snapshots (app.py lines 175-202): attempts each delete; a
ClientError with code InvalidSnapshot.InUse is logged as a warning and
skipped, any other ClientError is logged as an error; the loop always
continues.  Observable outcome: (deleted, warned-in-use, errored). -/
def delete_snapshots (st : EC2State) :
    List SnapRec → List String × List String × List String
  | [] => ([], [], [])
  | s :: ss =>
    let rest := delete_snapshots st ss
    match st.deleteSnapshotResult s.snapshotId with
    | none => (s.snapshotId :: rest.1, rest.2.1, rest.2.2)
    | some err =>
      if err.code = "InvalidSnapshot.InUse" then
        (rest.1, s.snapshotId :: rest.2.1, rest.2.2)
      else
        (rest.1, rest.2.1, s.snapshotId :: rest.2.2)

/-- EC2 API calls issued by a run, in order. -/
inductive Op where
  | discoverVolumes
  | deleteVolume (id : String)
  | discoverSnapshots
  | deleteSnapshot (id : String)
deriving DecidableEq

/-- The dict returned by lambda_handler on success. -/
structure Response where
  statusCode : Nat
  body : String
deriving DecidableEq

/-- The body string built at app.py line 229. -/
def summaryBody (nvols nsnaps : Nat) : String :=
  "Successfully processed " ++ toString nvols ++ " volumes and " ++
    toString nsnaps ++ " snapshots"

/-- Everything observable about one invocation: the returned dict or the
re-raised exception, which deletes succeeded / failed / were skipped, and
the ordered trace of EC2 operations. -/
structure RunResult where
  outcome : Except ClientError Response
  deletedVolumes : List String
  volumeErrors : List String
  deletedSnapshots : List String
  snapshotWarnings : List String
  snapshotErrors : List String
  trace : List Op

/-- lambda_handler (app.py lines 205-233): builds a fresh EBSCleaner
(ignoring the event), discovers and deletes volumes, then discovers and
deletes snapshots, and returns statusCode 200 with the two candidate-list
lengths; any exception is logged and re-raised. -/
def lambda_handler (clock : Clock) (event : Option Int) (st : EC2State) :
    RunResult :=
  match get_volumes_to_delete EBSCleaner.init clock 0 st with
  | .error e =>
    ⟨.error e, [], [], [], [], [], [Op.discoverVolumes]⟩
  | .ok (vols, i) =>
    let dv := delete_volumes st vols
    match get_snapshots_to_delete EBSCleaner.init clock i st with
    | .error e =>
      ⟨.error e, dv.1, dv.2, [], [], [],
        Op.discoverVolumes ::
          (vols.map (fun v => Op.deleteVolume v.volumeId) ++
            [Op.discoverSnapshots])⟩
    | .ok (snaps, _) =>
      let ds := delete_snapshots st snaps
      ⟨.ok ⟨200, summaryBody vols.length snaps.length⟩,
        dv.1, dv.2, ds.1, ds.2.1, ds.2.2,
        Op.discoverVolumes ::
          (vols.map (fun v => Op.deleteVolume v.volumeId) ++
            Op.discoverSnapshots ::
              snaps.map (fun s => Op.deleteSnapshot s.snapshotId))⟩

/-! ## Auxiliary definitions used by the theorems -/

/-- Test for the in-use soft-skip branch of delete_snapshots. -/
def inUseSkip (st : EC2State) (id : String) : Bool :=
  match st.deleteSnapshotResult id with
  | none => false
  | some e => e.code == "InvalidSnapshot.InUse"

/-- Test for the hard-error branch of delete_snapshots. -/
def hardSnapErr (st : EC2State) (id : String) : Bool :=
  match st.deleteSnapshotResult id with
  | none => false
  | some e => !(e.code == "InvalidSnapshot.InUse")

/-- The snapshot candidate ids as a function of the service state and
the retention date alone (no clock, no sample index). -/
def snapIdsSpec (st : EC2State) (rd : Int) :
    List Snapshot → Except ClientError (List String)
  | [] => .ok []
  | s :: ss =>
    if s.startTime < rd then
      match should_delete_snapshot st s with
      | .error e => .error e
      | .ok true => (snapIdsSpec st rd ss).map (fun l => s.snapshotId :: l)
      | .ok false => snapIdsSpec st rd ss
    else
      snapIdsSpec st rd ss

/-- The volume candidate ids a run would compute from sample index i. -/
def volumeCandidateIds (c : EBSCleaner) (clock : Clock) (i : Nat)
    (st : EC2State) : Except ClientError (List String) :=
  (get_volumes_to_delete c clock i st).map
    (fun p => p.1.map (fun r => r.volumeId))

/-- The snapshot candidate ids a run would compute from sample index i. -/
def snapshotCandidateIds (c : EBSCleaner) (clock : Clock) (i : Nat)
    (st : EC2State) : Except ClientError (List String) :=
  (get_snapshots_to_delete c clock i st).map
    (fun p => p.1.map (fun r => r.snapshotId))

/-- A run clock frozen at instant 1000000. -/
def clockC1 : Clock := fun _ => 1000000

/-- One available volume created 60 seconds before the run, every delete
succeeding, invoked with retention_days = 0 in the event. -/
def stC1 : EC2State :=
  { volumes := [⟨"vol-fresh", 10, 999940, "available"⟩]
    snapshots := []
    describeVolumesErr := none
    describeSnapshotsErr := none
    lookupVolume := fun _ => .error ⟨"InvalidVolume.NotFound"⟩
    deleteVolumeResult := fun _ => none
    deleteSnapshotResult := fun _ => none }

/-- A run clock frozen at instant 1000000. -/
def clockC2 : Clock := fun _ => 1000000

/-- One available volume created 7 days and 1 hour before the run, so its
whole-day age is exactly the 7-day threshold. -/
def stC2 : EC2State :=
  { volumes := [⟨"vol-a", 8, 1000000 - (7 * 86400 + 3600), "available"⟩]
    snapshots := []
    describeVolumesErr := none
    describeSnapshotsErr := none
    lookupVolume := fun _ => .error ⟨"InvalidVolume.NotFound"⟩
    deleteVolumeResult := fun _ => none
    deleteSnapshotResult := fun _ => none }

/-- A clock frozen at instant 0. -/
def clockC9a : Clock := fun _ => 0

/-- A clock that reads 0 at the first sample and 1 afterwards: one second
elapses after the volume phase sampled now. -/
def clockC9b : Clock := fun n => if n = 0 then 0 else 1

/-- One orphaned snapshot started exactly 7 days before instant 0. -/
def stC9 : EC2State :=
  { volumes := []
    snapshots := [⟨"snap-1", none, -(7 * 86400), none⟩]
    describeVolumesErr := none
    describeSnapshotsErr := none
    lookupVolume := fun _ => .error ⟨"InvalidVolume.NotFound"⟩
    deleteVolumeResult := fun _ => none
    deleteSnapshotResult := fun _ => none }

/-! ## Concrete run scenarios -/

/-- A run clock frozen at instant 1000000. -/
def clockC3 : Clock := fun _ => 1000000

/-- Three available 10-day-old volumes; the delete call for vol-2
raises a ClientError, the others succeed. -/
def stC3 : EC2State :=
  { volumes :=
      [⟨"vol-1", 100, 136000, "available"⟩,
       ⟨"vol-2", 100, 136000, "available"⟩,
       ⟨"vol-3", 100, 136000, "available"⟩]
    snapshots := []
    describeVolumesErr := none
    describeSnapshotsErr := none
    lookupVolume := fun _ => .error ⟨"InvalidVolume.NotFound"⟩
    deleteVolumeResult := fun id =>
      if id = "vol-2" then some ⟨"VolumeInUse"⟩ else none
    deleteSnapshotResult := fun _ => none }

/-- A run clock frozen at instant 1000000. -/
def clockC4 : Clock := fun _ => 1000000

/-- Lookups for four origin volumes: available, in-use, a transient
RequestLimitExceeded error, and not-found; the listed snapshot is old and
references the transiently failing volume. -/
def stC4 : EC2State :=
  { volumes := []
    snapshots := [⟨"snap-bad", some "vol-bad", 0, none⟩]
    describeVolumesErr := none
    describeSnapshotsErr := none
    lookupVolume := fun vid =>
      if vid = "vol-av" then .ok "available"
      else if vid = "vol-use" then .ok "in-use"
      else if vid = "vol-bad" then .error ⟨"RequestLimitExceeded"⟩
      else .error ⟨"InvalidVolume.NotFound"⟩
    deleteVolumeResult := fun _ => none
    deleteSnapshotResult := fun _ => none }

/-- A run clock frozen at instant 1000000. -/
def clockC5 : Clock := fun _ => 1000000

/-- A single very old in-use volume (created at instant 0, run at
1000000). -/
def stC5 : EC2State :=
  { volumes := [⟨"vol-used", 50, 0, "in-use"⟩]
    snapshots := []
    describeVolumesErr := none
    describeSnapshotsErr := none
    lookupVolume := fun _ => .error ⟨"InvalidVolume.NotFound"⟩
    deleteVolumeResult := fun _ => none
    deleteSnapshotResult := fun _ => none }

/-- A run clock frozen at instant 1000000. -/
def clockC6 : Clock := fun _ => 1000000

/-- A single 10-day-old orphaned snapshot. -/
def stC6 : EC2State :=
  { volumes := []
    snapshots := [⟨"snap-o", none, 136000, none⟩]
    describeVolumesErr := none
    describeSnapshotsErr := none
    lookupVolume := fun _ => .error ⟨"InvalidVolume.NotFound"⟩
    deleteVolumeResult := fun _ => none
    deleteSnapshotResult := fun _ => none }

/-- Deleting snap-2 raises InvalidSnapshot.InUse; every other snapshot
delete succeeds. -/
def stC7 : EC2State :=
  { volumes := []
    snapshots := []
    describeVolumesErr := none
    describeSnapshotsErr := none
    lookupVolume := fun _ => .error ⟨"InvalidVolume.NotFound"⟩
    deleteVolumeResult := fun _ => none
    deleteSnapshotResult := fun id =>
      if id = "snap-2" then some ⟨"InvalidSnapshot.InUse"⟩ else none }

/-- A batch of three snapshot deletion candidates. -/
def recsC7 : List SnapRec :=
  [⟨"snap-1", none, 9, "No description"⟩,
   ⟨"snap-2", none, 9, "No description"⟩,
   ⟨"snap-3", none, 9, "No description"⟩]

/-- A run clock frozen at instant 1000000. -/
def clockC8 : Clock := fun _ => 1000000

/-- Volume listing raises AuthFailure; old resources exist but must not
be touched. -/
def stC8 : EC2State :=
  { volumes := [⟨"vol-old", 20, 0, "available"⟩]
    snapshots := [⟨"snap-old", none, 0, none⟩]
    describeVolumesErr := some ⟨"AuthFailure"⟩
    describeSnapshotsErr := none
    lookupVolume := fun _ => .error ⟨"InvalidVolume.NotFound"⟩
    deleteVolumeResult := fun _ => none
    deleteSnapshotResult := fun _ => none }

/-- A run clock frozen at instant 1000000. -/
def clockC10 : Clock := fun _ => 1000000

/-- One old available volume and one old orphaned snapshot; every delete
call raises RequestLimitExceeded. -/
def stC10 : EC2State :=
  { volumes := [⟨"vol-x", 30, 0, "available"⟩]
    snapshots := [⟨"snap-x", none, 0, none⟩]
    describeVolumesErr := none
    describeSnapshotsErr := none
    lookupVolume := fun _ => .error ⟨"InvalidVolume.NotFound"⟩
    deleteVolumeResult := fun _ => some ⟨"RequestLimitExceeded"⟩
    deleteSnapshotResult := fun _ => some ⟨"RequestLimitExceeded"⟩ }

/-! ## Theorems -/

/-- The ids kept by the volume loop are those of the volumes strictly
older than the retention date, in listing order; they do not depend on
the clock or on the sample index. -/
theorem volFilterLoop_fst_ids (clock : Clock) (rd : Int) (vs : List Volume) :
    ∀ i : Nat,
      ((volFilterLoop clock rd vs i).1).map (fun r => r.volumeId) =
        (vs.filter (fun v => decide (v.createTime < rd))).map
          (fun v => v.volumeId) := by
  induction vs with
  | nil => intro i; rfl
  | cons v vs ih =>
    intro i
    by_cases h : v.createTime < rd
    · simp [volFilterLoop, h, ih]
    · simp [volFilterLoop, h, ih]

/-- Membership in the volume candidate list forces an origin volume in
the filtered listing. -/
theorem mem_volFilterLoop (clock : Clock) (rd : Int) (vs : List Volume)
    (i : Nat) (r : VolRec) (hr : r ∈ (volFilterLoop clock rd vs i).1) :
    ∃ v ∈ vs, v.volumeId = r.volumeId ∧ v.createTime < rd := by
  have hmap : r.volumeId ∈
      ((volFilterLoop clock rd vs i).1).map (fun r => r.volumeId) :=
    List.mem_map_of_mem _ hr
  rw [volFilterLoop_fst_ids] at hmap
  rcases List.mem_map.mp hmap with ⟨v, hv, hid⟩
  rcases List.mem_filter.mp hv with ⟨hvs, hlt⟩
  exact ⟨v, hvs, hid, of_decide_eq_true hlt⟩

/-- delete_volumes deletes exactly the records whose delete call
succeeds, in order. -/
theorem delete_volumes_fst (st : EC2State) (recs : List VolRec) :
    (delete_volumes st recs).1 =
      (recs.filter
        (fun r => (st.deleteVolumeResult r.volumeId).isNone)).map
        (fun r => r.volumeId) := by
  induction recs with
  | nil => rfl
  | cons r rs ih =>
    cases h : st.deleteVolumeResult r.volumeId with
    | none => simp [delete_volumes, h, ih]
    | some e => simp [delete_volumes, h, ih]

/-- delete_volumes records exactly the records whose delete call raises,
in order. -/
theorem delete_volumes_snd (st : EC2State) (recs : List VolRec) :
    (delete_volumes st recs).2 =
      (recs.filter
        (fun r => (st.deleteVolumeResult r.volumeId).isSome)).map
        (fun r => r.volumeId) := by
  induction recs with
  | nil => rfl
  | cons r rs ih =>
    cases h : st.deleteVolumeResult r.volumeId with
    | none => simp [delete_volumes, h, ih]
    | some e => simp [delete_volumes, h, ih]

/-- An id is deleted by delete_volumes iff some record carries it and its
delete call succeeds. -/
theorem mem_delete_volumes_fst (st : EC2State) (recs : List VolRec)
    (id : String) :
    id ∈ (delete_volumes st recs).1 ↔
      (∃ r ∈ recs, r.volumeId = id) ∧
        st.deleteVolumeResult id = none := by
  rw [delete_volumes_fst]
  constructor
  · intro h
    rcases List.mem_map.mp h with ⟨r, hr, hid⟩
    rcases List.mem_filter.mp hr with ⟨hrs, hok⟩
    subst hid
    exact ⟨⟨r, hrs, rfl⟩, Option.isNone_iff_eq_none.mp hok⟩
  · rintro ⟨⟨r, hr, rfl⟩, hok⟩
    exact List.mem_map_of_mem _
      (List.mem_filter.mpr ⟨hr, by simp [hok]⟩)

/-- An id is recorded as failed by delete_volumes iff some record carries
it and its delete call raises. -/
theorem mem_delete_volumes_snd (st : EC2State) (recs : List VolRec)
    (id : String) :
    id ∈ (delete_volumes st recs).2 ↔
      (∃ r ∈ recs, r.volumeId = id) ∧
        (st.deleteVolumeResult id).isSome := by
  rw [delete_volumes_snd]
  constructor
  · intro h
    rcases List.mem_map.mp h with ⟨r, hr, hid⟩
    rcases List.mem_filter.mp hr with ⟨hrs, hok⟩
    subst hid
    exact ⟨⟨r, hrs, rfl⟩, hok⟩
  · rintro ⟨⟨r, hr, rfl⟩, hok⟩
    exact List.mem_map_of_mem _ (List.mem_filter.mpr ⟨hr, hok⟩)

/-- delete_snapshots deletes exactly the records whose delete call
succeeds, in order. -/
theorem delete_snapshots_deleted (st : EC2State) (recs : List SnapRec) :
    (delete_snapshots st recs).1 =
      (recs.filter
        (fun s => (st.deleteSnapshotResult s.snapshotId).isNone)).map
        (fun s => s.snapshotId) := by
  induction recs with
  | nil => rfl
  | cons s ss ih =>
    cases h : st.deleteSnapshotResult s.snapshotId with
    | none => simp [delete_snapshots, h, ih]
    | some e =>
      by_cases hc : e.code = "InvalidSnapshot.InUse"
      · simp [delete_snapshots, h, hc, ih]
      · simp [delete_snapshots, h, hc, ih]

/-- delete_snapshots warns exactly on the records whose delete call
raises InvalidSnapshot.InUse, in order. -/
theorem delete_snapshots_warned (st : EC2State) (recs : List SnapRec) :
    (delete_snapshots st recs).2.1 =
      (recs.filter (fun s => inUseSkip st s.snapshotId)).map
        (fun s => s.snapshotId) := by
  induction recs with
  | nil => rfl
  | cons s ss ih =>
    cases h : st.deleteSnapshotResult s.snapshotId with
    | none => simp [delete_snapshots, inUseSkip, h, ih]
    | some e =>
      by_cases hc : e.code = "InvalidSnapshot.InUse"
      · simp [delete_snapshots, inUseSkip, h, hc, ih]
      · simp [delete_snapshots, inUseSkip, h, hc, ih]

/-- delete_snapshots records as errors exactly the records whose delete
call raises any other ClientError, in order. -/
theorem delete_snapshots_errored (st : EC2State) (recs : List SnapRec) :
    (delete_snapshots st recs).2.2 =
      (recs.filter (fun s => hardSnapErr st s.snapshotId)).map
        (fun s => s.snapshotId) := by
  induction recs with
  | nil => rfl
  | cons s ss ih =>
    cases h : st.deleteSnapshotResult s.snapshotId with
    | none => simp [delete_snapshots, hardSnapErr, h, ih]
    | some e =>
      by_cases hc : e.code = "InvalidSnapshot.InUse"
      · simp [delete_snapshots, hardSnapErr, h, hc, ih]
      · simp [delete_snapshots, hardSnapErr, h, hc, ih]

/-- A snapshot kept by the retention filter and by
_should_delete_snapshot reaches the candidate list whenever the loop
succeeds. -/
theorem snapFilterLoop_mem (st : EC2State) (clock : Clock) (rd : Int)
    (s : Snapshot) (ss : List Snapshot) :
    ∀ (i : Nat) (l : List SnapRec) (n : Nat),
      s ∈ ss → s.startTime < rd →
      should_delete_snapshot st s = .ok true →
      snapFilterLoop st clock rd ss i = .ok (l, n) →
      ∃ r ∈ l, r.snapshotId = s.snapshotId := by
  induction ss with
  | nil => intro i l n hmem; cases hmem
  | cons t ts ih =>
    intro i l n hmem hage hok hloop
    rcases List.mem_cons.mp hmem with rfl | hmem
    · rw [snapFilterLoop, if_pos hage, hok] at hloop
      cases hrec : snapFilterLoop st clock rd ts (i + 1) with
      | error e => rw [hrec] at hloop; cases hloop
      | ok rest =>
        rw [hrec] at hloop
        cases hloop
        exact ⟨_, List.mem_cons_self _ _, rfl⟩
    · by_cases ht : t.startTime < rd
      · rw [snapFilterLoop, if_pos ht] at hloop
        cases hsd : should_delete_snapshot st t with
        | error e => rw [hsd] at hloop; cases hloop
        | ok b =>
          rw [hsd] at hloop
          cases b with
          | true =>
            cases hrec : snapFilterLoop st clock rd ts (i + 1) with
            | error e => rw [hrec] at hloop; cases hloop
            | ok rest =>
              rw [hrec] at hloop
              cases hloop
              rcases ih (i + 1) rest.1 rest.2 hmem hage hok hrec with
                ⟨r, hr, hid⟩
              exact ⟨r, List.mem_cons_of_mem _ hr, hid⟩
          | false => exact ih i l n hmem hage hok hloop
      · rw [snapFilterLoop, if_neg ht] at hloop
        exact ih i l n hmem hage hok hloop

/-- If any snapshot past the retention date makes
_should_delete_snapshot raise, the whole loop raises. -/
theorem snapFilterLoop_error (st : EC2State) (clock : Clock) (rd : Int)
    (s : Snapshot) (e : ClientError) (ss : List Snapshot) :
    ∀ i : Nat,
      s ∈ ss → s.startTime < rd →
      should_delete_snapshot st s = .error e →
      ∃ e', snapFilterLoop st clock rd ss i = .error e' := by
  induction ss with
  | nil => intro i hmem; cases hmem
  | cons t ts ih =>
    intro i hmem hage herr
    rcases List.mem_cons.mp hmem with rfl | hmem
    · exact ⟨e, by rw [snapFilterLoop, if_pos hage, herr]⟩
    · by_cases ht : t.startTime < rd
      · cases hsd : should_delete_snapshot st t with
        | error e2 => exact ⟨e2, by rw [snapFilterLoop, if_pos ht, hsd]⟩
        | ok b =>
          cases b with
          | true =>
            rcases ih (i + 1) hmem hage herr with ⟨e', he'⟩
            exact ⟨e', by rw [snapFilterLoop, if_pos ht, hsd, he']⟩
          | false =>
            rcases ih i hmem hage herr with ⟨e', he'⟩
            rw [snapFilterLoop, if_pos ht, hsd]
            exact ⟨e', he'⟩
      · rcases ih i hmem hage herr with ⟨e', he'⟩
        rw [snapFilterLoop, if_neg ht]
        exact ⟨e', he'⟩

/-- The ids kept by the snapshot loop do not depend on the clock or on
the sample index. -/
theorem snapFilterLoop_ids (st : EC2State) (clock : Clock) (rd : Int)
    (ss : List Snapshot) :
    ∀ i : Nat,
      (snapFilterLoop st clock rd ss i).map
          (fun p => p.1.map (fun r => r.snapshotId)) =
        snapIdsSpec st rd ss := by
  induction ss with
  | nil => intro i; rfl
  | cons t ts ih =>
    intro i
    by_cases ht : t.startTime < rd
    · rw [snapFilterLoop, if_pos ht, snapIdsSpec, if_pos ht]
      cases hsd : should_delete_snapshot st t with
      | error e => simp [Except.map]
      | ok b =>
        cases b with
        | true =>
          rw [← ih (i + 1)]
          cases hrec : snapFilterLoop st clock rd ts (i + 1) with
          | error e => simp [Except.map]
          | ok rest => simp [Except.map]
        | false => exact ih i
    · rw [snapFilterLoop, if_neg ht, snapIdsSpec, if_neg ht]
      exact ih i

/-- lambda_handler when both discovery calls succeed. -/
theorem lambda_handler_ok_eq (clock : Clock) (ev : Option Int)
    (st : EC2State) (vols : List VolRec) (i : Nat) (snaps : List SnapRec)
    (j : Nat)
    (h1 : get_volumes_to_delete EBSCleaner.init clock 0 st = .ok (vols, i))
    (h2 : get_snapshots_to_delete EBSCleaner.init clock i st =
      .ok (snaps, j)) :
    lambda_handler clock ev st =
      ⟨.ok ⟨200, summaryBody vols.length snaps.length⟩,
        (delete_volumes st vols).1, (delete_volumes st vols).2,
        (delete_snapshots st snaps).1, (delete_snapshots st snaps).2.1,
        (delete_snapshots st snaps).2.2,
        Op.discoverVolumes ::
          (vols.map (fun v => Op.deleteVolume v.volumeId) ++
            Op.discoverSnapshots ::
              snaps.map (fun s => Op.deleteSnapshot s.snapshotId))⟩ := by
  simp only [lambda_handler, h1, h2]

/-- lambda_handler when the volume listing raises: the error propagates
and nothing else happens. -/
theorem lambda_handler_volerr_eq (clock : Clock) (ev : Option Int)
    (st : EC2State) (e : ClientError) (h : st.describeVolumesErr = some e) :
    lambda_handler clock ev st =
      ⟨.error e, [], [], [], [], [], [Op.discoverVolumes]⟩ := by
  have hv : get_volumes_to_delete EBSCleaner.init clock 0 st = .error e := by
    simp [get_volumes_to_delete, h]
  simp only [lambda_handler, hv]

/-- lambda_handler when snapshot discovery raises after the volume phase
completed. -/
theorem lambda_handler_snaperr_eq (clock : Clock) (ev : Option Int)
    (st : EC2State) (vols : List VolRec) (i : Nat) (e : ClientError)
    (h1 : get_volumes_to_delete EBSCleaner.init clock 0 st = .ok (vols, i))
    (h2 : get_snapshots_to_delete EBSCleaner.init clock i st = .error e) :
    lambda_handler clock ev st =
      ⟨.error e, (delete_volumes st vols).1, (delete_volumes st vols).2,
        [], [], [],
        Op.discoverVolumes ::
          (vols.map (fun v => Op.deleteVolume v.volumeId) ++
            [Op.discoverSnapshots])⟩ := by
  simp only [lambda_handler, h1, h2]

/-! ## Claim theorems -/

/-- C1 counterexample: the invocation event carries retention_days = 0,
stC1 holds a volume created 60 seconds before the run with status
available whose delete call would succeed, yet the run deletes nothing
and reports 0 volumes processed — the event's retention_days is ignored
and no "no retention enforced" sentinel exists, contradicting the claim
that such a volume is eligible regardless of age. -/
theorem C1_counterexample :
    stC1.volumes = [⟨"vol-fresh", 10, clockC1 0 - 60, "available"⟩] ∧
    stC1.deleteVolumeResult "vol-fresh" = none ∧
    (lambda_handler clockC1 (some 0) stC1).deletedVolumes = [] ∧
    (lambda_handler clockC1 (some 0) stC1).outcome =
      .ok ⟨200, summaryBody 0 0⟩ :=
  ⟨by decide, rfl, rfl, rfl⟩

/-- C1 (amended): lambda_handler ignores the invocation event entirely —
the run's outcome is identical for every event, including any
retention_days value — and the retention threshold is the fixed 7 days
set by EBSCleaner.__init__; no "no retention enforced" sentinel exists. -/
theorem C1_event_ignored :
    ∀ (clock : Clock) (st : EC2State) (ev ev' : Option Int),
      EBSCleaner.init.retention_days = 7 ∧
      lambda_handler clock ev st = lambda_handler clock ev' st :=
  fun _ _ _ _ => ⟨rfl, rfl⟩

/-- C2 counterexample: with the 7-day threshold, a volume created 7 days
and 1 hour before the run — whole-day age exactly 7, equal to the
threshold — IS selected for deletion (and deleted), contradicting the
claim that whole-day age equal to the threshold is not eligible: the code
compares raw instants, not whole-day ages. -/
theorem C2_counterexample :
    get_volumes_to_delete EBSCleaner.init clockC2 0 stC2 =
      .ok ([⟨"vol-a", 8, EBSCleaner.init.retention_days⟩], 2) ∧
    (lambda_handler clockC2 none stC2).deletedVolumes = ["vol-a"] :=
  ⟨rfl, rfl⟩

/-- C2 (amended): the retention decision compares raw instants, not
whole-day ages: a sole available volume (resp. orphaned snapshot) is a
deletion candidate exactly when strictly more than threshold * 86400
seconds elapsed between its creation/start instant and the sampled now;
elapsed time of exactly threshold days is not eligible, while threshold
days plus any fraction (whole-day age still equal to the threshold) IS
eligible. -/
theorem C2_amended :
    (∀ (c : EBSCleaner) (clock : Clock) (i : Nat) (st : EC2State)
        (v : Volume),
      st.describeVolumesErr = none → st.volumes = [v] →
      v.status = "available" →
      ∃ l n, get_volumes_to_delete c clock i st = .ok (l, n) ∧
        ((∃ r ∈ l, r.volumeId = v.volumeId) ↔
          c.retention_days * secondsPerDay < clock i - v.createTime)) ∧
    (∀ (c : EBSCleaner) (clock : Clock) (i : Nat) (st : EC2State)
        (s : Snapshot),
      st.describeSnapshotsErr = none → st.snapshots = [s] →
      s.volumeId = none →
      ∃ l n, get_snapshots_to_delete c clock i st = .ok (l, n) ∧
        ((∃ r ∈ l, r.snapshotId = s.snapshotId) ↔
          c.retention_days * secondsPerDay < clock i - s.startTime)) := by
  constructor
  · intro c clock i st v h0 hvols hstat
    have hfil : (v.status == "available") = true := by simp [hstat]
    by_cases hlt : v.createTime < clock i - c.retention_days * secondsPerDay
    · refine ⟨[⟨v.volumeId, v.size,
          (clock (i + 1) - v.createTime) / secondsPerDay⟩], i + 2, ?_, ?_⟩
      · simp [get_volumes_to_delete, h0, hvols, List.filter, hfil,
          volFilterLoop, hlt]
      · constructor
        · intro _; omega
        · intro _; exact ⟨_, List.mem_singleton_self _, rfl⟩
    · refine ⟨[], i + 1, ?_, ?_⟩
      · simp [get_volumes_to_delete, h0, hvols, List.filter, hfil,
          volFilterLoop, hlt]
      · simp
        omega
  · intro c clock i st s h0 hsnaps hvid
    have hsd : should_delete_snapshot st s = .ok true := by
      simp [should_delete_snapshot, hvid]
    by_cases hlt : s.startTime < clock i - c.retention_days * secondsPerDay
    · refine ⟨[⟨s.snapshotId, s.volumeId,
          (clock (i + 1) - s.startTime) / secondsPerDay,
          s.description.getD "No description"⟩], i + 2, ?_, ?_⟩
      · simp [get_snapshots_to_delete, h0, hsnaps, snapFilterLoop, hlt, hsd]
      · constructor
        · intro _; omega
        · intro _; exact ⟨_, List.mem_singleton_self _, rfl⟩
    · refine ⟨[], i + 1, ?_, ?_⟩
      · simp [get_snapshots_to_delete, h0, hsnaps, snapFilterLoop, hlt, hsd]
      · simp
        omega

/-- Witness for C2 (amended) at the stC2 scenario. -/
theorem C2_amended_witness :
    ∃ l n, get_volumes_to_delete EBSCleaner.init clockC2 0 stC2 =
        .ok (l, n) ∧
      ((∃ r ∈ l, r.volumeId = "vol-a") ↔
        EBSCleaner.init.retention_days * secondsPerDay <
          clockC2 0 - (1000000 - (7 * 86400 + 3600))) :=
  C2_amended.1 EBSCleaner.init clockC2 0 stC2
    ⟨"vol-a", 8, 1000000 - (7 * 86400 + 3600), "available"⟩ rfl rfl rfl

/-- C9 counterexample: two runs over the same service state, under two
clocks that agree on the first now() sample but where one second elapses
before the snapshot phase samples now() again, delete different snapshot
sets — so retention evaluation does not use a single 'now' sampled once
per run: a snapshot's filtering decision changed mid-run as wall-clock
time passed. -/
theorem C9_counterexample :
    clockC9a 0 = clockC9b 0 ∧
    (lambda_handler clockC9a none stC9).deletedSnapshots = [] ∧
    (lambda_handler clockC9b none stC9).deletedSnapshots = ["snap-1"] :=
  ⟨rfl, rfl, rfl⟩

/-- C9 (amended): within one discovery phase all retention decisions use
that phase's single now() sample — the candidate ids depend only on the
sample at the phase's entry index — but the volume phase and the snapshot
phase each sample now() afresh, so the run as a whole has no single
consistent 'now' (C9_counterexample exhibits the resulting divergence). -/
theorem C9_amended :
    ∀ (c : EBSCleaner) (clock clock' : Clock) (i : Nat) (st : EC2State),
      clock i = clock' i →
      volumeCandidateIds c clock i st = volumeCandidateIds c clock' i st ∧
      snapshotCandidateIds c clock i st =
        snapshotCandidateIds c clock' i st := by
  intro c clock clock' i st h
  constructor
  · unfold volumeCandidateIds get_volumes_to_delete
    cases hv : st.describeVolumesErr with
    | some e => rfl
    | none =>
      simp only [Except.map, volFilterLoop_fst_ids, h]
  · unfold snapshotCandidateIds get_snapshots_to_delete
    cases hs : st.describeSnapshotsErr with
    | some e => rfl
    | none =>
      simp only [snapFilterLoop_ids, h]

/-- Witness for C9 (amended): the two C9 clocks agree at index 0, so the
volume-phase candidate ids agree. -/
theorem C9_amended_witness :
    volumeCandidateIds EBSCleaner.init clockC9a 0 stC9 =
      volumeCandidateIds EBSCleaner.init clockC9b 0 stC9 ∧
    snapshotCandidateIds EBSCleaner.init clockC9a 0 stC9 =
      snapshotCandidateIds EBSCleaner.init clockC9b 0 stC9 :=
  C9_amended EBSCleaner.init clockC9a clockC9b 0 stC9 rfl

/-- C3 counterexample: in the 3-volume batch where the delete of the
2nd raises, the 1st and 3rd are still deleted (isolation holds), but the
run summary reports the candidate count 3 as processed — it contains no
success/failure tally, and the number of volumes it reports (3) is not
the success count (2), contradicting the claim that the summary reports
2 successes and 1 failure. -/
theorem C3_counterexample :
    (lambda_handler clockC3 none stC3).deletedVolumes = ["vol-1", "vol-3"] ∧
    (lambda_handler clockC3 none stC3).volumeErrors = ["vol-2"] ∧
    (lambda_handler clockC3 none stC3).outcome = .ok ⟨200, summaryBody 3 0⟩ ∧
    (lambda_handler clockC3 none stC3).deletedVolumes.length ≠ 3 :=
  ⟨rfl, rfl, rfl, by decide⟩

/-- C3 (amended): volume deletion is failure-isolated per resource —
every record whose delete call succeeds is deleted and every record
whose delete call raises is recorded as failed, regardless of failures
elsewhere in the batch — and the run summary reports the candidate-list
lengths computed before deletion, not success/failure counts. -/
theorem C3_failure_isolation :
    (∀ (st : EC2State) (recs : List VolRec) (r : VolRec),
      r ∈ recs →
      (st.deleteVolumeResult r.volumeId = none →
        r.volumeId ∈ (delete_volumes st recs).1) ∧
      ((st.deleteVolumeResult r.volumeId).isSome →
        r.volumeId ∈ (delete_volumes st recs).2)) ∧
    (∀ (clock : Clock) (ev : Option Int) (st : EC2State)
        (vols : List VolRec) (i : Nat) (snaps : List SnapRec) (j : Nat),
      get_volumes_to_delete EBSCleaner.init clock 0 st = .ok (vols, i) →
      get_snapshots_to_delete EBSCleaner.init clock i st = .ok (snaps, j) →
      (lambda_handler clock ev st).outcome =
        .ok ⟨200, summaryBody vols.length snaps.length⟩) := by
  constructor
  · intro st recs r hr
    constructor
    · intro hok
      exact (mem_delete_volumes_fst st recs r.volumeId).mpr
        ⟨⟨r, hr, rfl⟩, hok⟩
    · intro hfail
      exact (mem_delete_volumes_snd st recs r.volumeId).mpr
        ⟨⟨r, hr, rfl⟩, hfail⟩
  · intro clock ev st vols i snaps j h1 h2
    rw [lambda_handler_ok_eq clock ev st vols i snaps j h1 h2]

/-- Witness for C3 (amended) at the stC3 scenario. -/
theorem C3_witness :
    "vol-1" ∈ (delete_volumes stC3
      [⟨"vol-1", 100, 10⟩, ⟨"vol-2", 100, 10⟩, ⟨"vol-3", 100, 10⟩]).1 ∧
    (lambda_handler clockC3 none stC3).outcome =
      .ok ⟨200, summaryBody 3 0⟩ :=
  ⟨(C3_failure_isolation.1 stC3
      [⟨"vol-1", 100, 10⟩, ⟨"vol-2", 100, 10⟩, ⟨"vol-3", 100, 10⟩]
      ⟨"vol-1", 100, 10⟩ (by decide)).1 rfl,
   C3_failure_isolation.2 clockC3 none stC3
      [⟨"vol-1", 100, 10⟩, ⟨"vol-2", 100, 10⟩, ⟨"vol-3", 100, 10⟩] 4 [] 5
      rfl rfl⟩

/-- C4: for a snapshot with an origin-volume id, eligibility follows the
lookup of that volume: State available makes it eligible, any other
returned State makes it not eligible, an InvalidVolume.NotFound error
makes it eligible, and any other ClientError propagates — snapshot
discovery raises, so the run deletes no snapshot at all (the snapshot is
excluded from this run rather than guessed). -/
theorem C4_origin_lookup :
    ∀ (st : EC2State) (snap : Snapshot) (vid : String),
      snap.volumeId = some vid → vid ≠ "" →
      ((∀ s, st.lookupVolume vid = .ok s →
          should_delete_snapshot st snap = .ok (s == "available")) ∧
       (∀ e, st.lookupVolume vid = .error e →
          e.code = "InvalidVolume.NotFound" →
          should_delete_snapshot st snap = .ok true) ∧
       (∀ e, st.lookupVolume vid = .error e →
          e.code ≠ "InvalidVolume.NotFound" →
          should_delete_snapshot st snap = .error e) ∧
       (∀ (clock : Clock) (ev : Option Int) (e : ClientError),
          should_delete_snapshot st snap = .error e →
          snap ∈ st.snapshots →
          (∀ j : Nat, snap.startTime <
            clock j - EBSCleaner.init.retention_days * secondsPerDay) →
          st.describeSnapshotsErr = none →
          (lambda_handler clock ev st).deletedSnapshots = [] ∧
          ∃ e', (lambda_handler clock ev st).outcome = .error e')) := by
  intro st snap vid hv hne
  refine ⟨?_, ?_, ?_, ?_⟩
  · intro s hs
    simp [should_delete_snapshot, hv, hne, hs]
  · intro e he hc
    simp [should_delete_snapshot, hv, hne, he, hc]
  · intro e he hc
    simp [should_delete_snapshot, hv, hne, he, hc]
  · intro clock ev e herr hmem hage hdesc
    cases hvol : get_volumes_to_delete EBSCleaner.init clock 0 st with
    | error e0 =>
      rw [lambda_handler_volerr_eq clock ev st e0 ?_]
      · exact ⟨rfl, e0, rfl⟩
      · revert hvol
        simp only [get_volumes_to_delete]
        cases st.describeVolumesErr with
        | some e1 => intro h; cases h; rfl
        | none => intro h; cases h
    | ok p =>
      rcases snapFilterLoop_error st clock
        (clock p.2 - EBSCleaner.init.retention_days * secondsPerDay)
        snap e st.snapshots (p.2 + 1) hmem (hage p.2) herr with ⟨e', hloop⟩
      have hsnap : get_snapshots_to_delete EBSCleaner.init clock p.2 st =
          .error e' := by
        simp only [get_snapshots_to_delete, hdesc, hloop]
      rw [lambda_handler_snaperr_eq clock ev st p.1 p.2 e' hvol hsnap]
      exact ⟨rfl, e', rfl⟩

/-- Witness for C4 at the stC4 scenario, one instance per branch. -/
theorem C4_witness :
    should_delete_snapshot stC4 ⟨"snap-a", some "vol-av", 0, none⟩ =
      .ok true ∧
    should_delete_snapshot stC4 ⟨"snap-u", some "vol-use", 0, none⟩ =
      .ok false ∧
    should_delete_snapshot stC4 ⟨"snap-n", some "vol-gone", 0, none⟩ =
      .ok true ∧
    should_delete_snapshot stC4 ⟨"snap-bad", some "vol-bad", 0, none⟩ =
      .error ⟨"RequestLimitExceeded"⟩ ∧
    (lambda_handler clockC4 none stC4).deletedSnapshots = [] ∧
    ∃ e', (lambda_handler clockC4 none stC4).outcome = .error e' := by
  refine ⟨?_, ?_, ?_, ?_, ?_, ?_⟩
  · exact (C4_origin_lookup stC4 ⟨"snap-a", some "vol-av", 0, none⟩
      "vol-av" rfl (by decide)).1 "available" rfl
  · exact (C4_origin_lookup stC4 ⟨"snap-u", some "vol-use", 0, none⟩
      "vol-use" rfl (by decide)).1 "in-use" rfl
  · exact (C4_origin_lookup stC4 ⟨"snap-n", some "vol-gone", 0, none⟩
      "vol-gone" rfl (by decide)).2.1 ⟨"InvalidVolume.NotFound"⟩ rfl rfl
  · exact (C4_origin_lookup stC4 ⟨"snap-bad", some "vol-bad", 0, none⟩
      "vol-bad" rfl (by decide)).2.2.1 ⟨"RequestLimitExceeded"⟩ rfl
      (by decide)
  · exact ((C4_origin_lookup stC4 ⟨"snap-bad", some "vol-bad", 0, none⟩
      "vol-bad" rfl (by decide)).2.2.2 clockC4 none
      ⟨"RequestLimitExceeded"⟩ rfl (by decide) (fun j => by norm_num [clockC4, secondsPerDay, EBSCleaner.init])
      rfl).1
  · exact ((C4_origin_lookup stC4 ⟨"snap-bad", some "vol-bad", 0, none⟩
      "vol-bad" rfl (by decide)).2.2.2 clockC4 none
      ⟨"RequestLimitExceeded"⟩ rfl (by decide) (fun j => by norm_num [clockC4, secondsPerDay, EBSCleaner.init])
      rfl).2

/-- C5: an id whose volumes all have status other than available —
regardless of age — is never selected by volume discovery and never
deleted by the run: describe_volumes is called with the server-side
status=available filter. -/
theorem C5_only_available :
    ∀ (clock : Clock) (ev : Option Int) (st : EC2State) (id : String),
      (∀ v ∈ st.volumes, v.volumeId = id → v.status ≠ "available") →
      (id ∉ (lambda_handler clock ev st).deletedVolumes ∧
       ∀ (c : EBSCleaner) (i : Nat) (l : List VolRec) (n : Nat),
         get_volumes_to_delete c clock i st = .ok (l, n) →
         ∀ r ∈ l, r.volumeId ≠ id) := by
  intro clock ev st id hna
  have hsel : ∀ (c : EBSCleaner) (i : Nat) (l : List VolRec) (n : Nat),
      get_volumes_to_delete c clock i st = .ok (l, n) →
      ∀ r ∈ l, r.volumeId ≠ id := by
    intro c i l n hok r hr hid
    cases hdesc : st.describeVolumesErr with
    | some e => simp [get_volumes_to_delete, hdesc] at hok
    | none =>
      simp only [get_volumes_to_delete, hdesc] at hok
      injection hok with hok
      have hl : l = (volFilterLoop clock
          (clock i - c.retention_days * secondsPerDay)
          (st.volumes.filter (fun v => v.status == "available"))
          (i + 1)).1 := by
        rw [hok]
      rcases mem_volFilterLoop _ _ _ _ r (hl ▸ hr) with ⟨v, hv, hvid, _⟩
      rcases List.mem_filter.mp hv with ⟨hvmem, hvstat⟩
      exact hna v hvmem (hvid.trans hid) (by simpa using hvstat)
  refine ⟨?_, hsel⟩
  cases hvol : get_volumes_to_delete EBSCleaner.init clock 0 st with
  | error e =>
    have hde : st.describeVolumesErr = some e := by
      revert hvol
      simp only [get_volumes_to_delete]
      cases st.describeVolumesErr with
      | some e1 => intro h; cases h; rfl
      | none => intro h; cases h
    rw [lambda_handler_volerr_eq clock ev st e hde]
    simp
  | ok p =>
    have hdel : (lambda_handler clock ev st).deletedVolumes =
        (delete_volumes st p.1).1 := by
      cases hsnap : get_snapshots_to_delete EBSCleaner.init clock p.2 st with
      | error e =>
        rw [lambda_handler_snaperr_eq clock ev st p.1 p.2 e hvol hsnap]
      | ok q =>
        rw [lambda_handler_ok_eq clock ev st p.1 p.2 q.1 q.2 hvol hsnap]
    rw [hdel]
    intro hmem
    rcases (mem_delete_volumes_fst st p.1 id).mp hmem with ⟨⟨r, hr, hrid⟩, _⟩
    exact hsel EBSCleaner.init 0 p.1 p.2 hvol r hr hrid

/-- Witness for C5: the old in-use volume is not deleted. -/
theorem C5_witness :
    "vol-used" ∉ (lambda_handler clockC5 none stC5).deletedVolumes :=
  (C5_only_available clockC5 none stC5 "vol-used" (by decide)).1

/-- C6: a snapshot with no origin-volume id always passes
_should_delete_snapshot — for every service state, so independently of
any volume state — and, once past the retention window, reaches the
deletion candidate list whenever snapshot discovery succeeds. -/
theorem C6_orphan_eligible :
    ∀ (st : EC2State) (snap : Snapshot),
      snap.volumeId = none →
      (should_delete_snapshot st snap = .ok true ∧
       ∀ (c : EBSCleaner) (clock : Clock) (i : Nat) (l : List SnapRec)
          (n : Nat),
         snap ∈ st.snapshots →
         snap.startTime < clock i - c.retention_days * secondsPerDay →
         get_snapshots_to_delete c clock i st = .ok (l, n) →
         ∃ r ∈ l, r.snapshotId = snap.snapshotId) := by
  intro st snap hvid
  have hsd : should_delete_snapshot st snap = .ok true := by
    simp [should_delete_snapshot, hvid]
  refine ⟨hsd, ?_⟩
  intro c clock i l n hmem hage hok
  cases hdesc : st.describeSnapshotsErr with
  | some e => simp [get_snapshots_to_delete, hdesc] at hok
  | none =>
    simp only [get_snapshots_to_delete, hdesc] at hok
    exact snapFilterLoop_mem st clock _ snap st.snapshots (i + 1) l n
      hmem hage hsd hok

/-- Witness for C6: the orphaned snapshot is among the candidates. -/
theorem C6_witness :
    ∃ r ∈ [(⟨"snap-o", none, 10, "No description"⟩ : SnapRec)],
      r.snapshotId = "snap-o" :=
  (C6_orphan_eligible stC6 ⟨"snap-o", none, 136000, none⟩ rfl).2
    EBSCleaner.init clockC6 0 [⟨"snap-o", none, 10, "No description"⟩] 2
    (by decide) (by decide) rfl

/-- C7: a snapshot whose delete raises InvalidSnapshot.InUse lands in
the warning list, in neither the deleted nor the hard-error list, and
every other snapshot of the batch whose delete succeeds is still
deleted — the in-use outcome is a soft skip and processing continues. -/
theorem C7_inuse_soft_skip :
    ∀ (st : EC2State) (snaps : List SnapRec) (s : SnapRec)
        (e : ClientError),
      s ∈ snaps → st.deleteSnapshotResult s.snapshotId = some e →
      e.code = "InvalidSnapshot.InUse" →
      (s.snapshotId ∈ (delete_snapshots st snaps).2.1 ∧
       s.snapshotId ∉ (delete_snapshots st snaps).1 ∧
       s.snapshotId ∉ (delete_snapshots st snaps).2.2 ∧
       ∀ t ∈ snaps, st.deleteSnapshotResult t.snapshotId = none →
         t.snapshotId ∈ (delete_snapshots st snaps).1) := by
  intro st snaps s e hs hres hcode
  refine ⟨?_, ?_, ?_, ?_⟩
  · rw [delete_snapshots_warned]
    exact List.mem_map_of_mem _
      (List.mem_filter.mpr ⟨hs, by simp [inUseSkip, hres, hcode]⟩)
  · rw [delete_snapshots_deleted]
    intro hmem
    rcases List.mem_map.mp hmem with ⟨t, ht, htid⟩
    rcases List.mem_filter.mp ht with ⟨_, hnone⟩
    rw [htid, hres] at hnone
    simp at hnone
  · rw [delete_snapshots_errored]
    intro hmem
    rcases List.mem_map.mp hmem with ⟨t, ht, htid⟩
    rcases List.mem_filter.mp ht with ⟨_, hhard⟩
    simp [hardSnapErr, htid, hres, hcode] at hhard
  · intro t ht htres
    rw [delete_snapshots_deleted]
    exact List.mem_map_of_mem _
      (List.mem_filter.mpr ⟨ht, by simp [htres]⟩)

/-- Witness for C7 at the stC7 batch. -/
theorem C7_witness :
    "snap-2" ∈ (delete_snapshots stC7 recsC7).2.1 ∧
    "snap-2" ∉ (delete_snapshots stC7 recsC7).1 ∧
    "snap-2" ∉ (delete_snapshots stC7 recsC7).2.2 ∧
    "snap-3" ∈ (delete_snapshots stC7 recsC7).1 := by
  have h := C7_inuse_soft_skip stC7 recsC7
    ⟨"snap-2", none, 9, "No description"⟩ ⟨"InvalidSnapshot.InUse"⟩
    (by decide) rfl rfl
  exact ⟨h.1, h.2.1, h.2.2.1,
    h.2.2.2 ⟨"snap-3", none, 9, "No description"⟩ (by decide) rfl⟩

/-- get_volumes_to_delete only raises the volume-listing error. -/
theorem get_volumes_to_delete_error (c : EBSCleaner) (clock : Clock)
    (i : Nat) (st : EC2State) (e : ClientError)
    (h : get_volumes_to_delete c clock i st = .error e) :
    st.describeVolumesErr = some e := by
  revert h
  simp only [get_volumes_to_delete]
  cases st.describeVolumesErr with
  | some e1 => intro h; cases h; rfl
  | none => intro h; cases h

/-- C8: every run trace splits into a prefix of volume operations
followed by a suffix of snapshot operations (volumes are fully discovered
and deleted before snapshot discovery begins), and when volume discovery
raises, the run performs no snapshot operation at all and the error
propagates as the invocation outcome. -/
theorem C8_sequencing :
    ∀ (clock : Clock) (ev : Option Int) (st : EC2State),
      (∃ t1 t2, (lambda_handler clock ev st).trace = t1 ++ t2 ∧
        (∀ op ∈ t1, op = Op.discoverVolumes ∨
          ∃ id, op = Op.deleteVolume id) ∧
        (∀ op ∈ t2, op = Op.discoverSnapshots ∨
          ∃ id, op = Op.deleteSnapshot id)) ∧
      (∀ e, st.describeVolumesErr = some e →
        (lambda_handler clock ev st).outcome = .error e ∧
        (lambda_handler clock ev st).trace = [Op.discoverVolumes] ∧
        (lambda_handler clock ev st).deletedSnapshots = [] ∧
        (lambda_handler clock ev st).snapshotWarnings = [] ∧
        (lambda_handler clock ev st).snapshotErrors = []) := by
  intro clock ev st
  constructor
  · cases hvol : get_volumes_to_delete EBSCleaner.init clock 0 st with
    | error e =>
      rw [lambda_handler_volerr_eq clock ev st e
        (get_volumes_to_delete_error _ _ _ _ _ hvol)]
      refine ⟨[Op.discoverVolumes], [], by simp, ?_, by simp⟩
      intro op hop
      rw [List.mem_singleton] at hop
      subst hop
      exact Or.inl rfl
    | ok p =>
      cases hsnap : get_snapshots_to_delete EBSCleaner.init clock p.2 st with
      | error e =>
        rw [lambda_handler_snaperr_eq clock ev st p.1 p.2 e hvol hsnap]
        refine ⟨Op.discoverVolumes ::
          p.1.map (fun v => Op.deleteVolume v.volumeId),
          [Op.discoverSnapshots], by simp, ?_, ?_⟩
        · intro op hop
          rcases List.mem_cons.mp hop with rfl | hop
          · exact Or.inl rfl
          · rcases List.mem_map.mp hop with ⟨v, _, rfl⟩
            exact Or.inr ⟨_, rfl⟩
        · intro op hop
          rw [List.mem_singleton] at hop
          subst hop
          exact Or.inl rfl
      | ok q =>
        rw [lambda_handler_ok_eq clock ev st p.1 p.2 q.1 q.2 hvol hsnap]
        refine ⟨Op.discoverVolumes ::
          p.1.map (fun v => Op.deleteVolume v.volumeId),
          Op.discoverSnapshots ::
            q.1.map (fun s => Op.deleteSnapshot s.snapshotId),
          by simp, ?_, ?_⟩
        · intro op hop
          rcases List.mem_cons.mp hop with rfl | hop
          · exact Or.inl rfl
          · rcases List.mem_map.mp hop with ⟨v, _, rfl⟩
            exact Or.inr ⟨_, rfl⟩
        · intro op hop
          rcases List.mem_cons.mp hop with rfl | hop
          · exact Or.inl rfl
          · rcases List.mem_map.mp hop with ⟨s, _, rfl⟩
            exact Or.inr ⟨_, rfl⟩
  · intro e he
    rw [lambda_handler_volerr_eq clock ev st e he]
    exact ⟨rfl, rfl, rfl, rfl, rfl⟩

/-- Witness for C8: with the volume listing failing, the run aborts with
that error after the single discovery call. -/
theorem C8_witness :
    (lambda_handler clockC8 none stC8).outcome = .error ⟨"AuthFailure"⟩ ∧
    (lambda_handler clockC8 none stC8).trace = [Op.discoverVolumes] := by
  have h := (C8_sequencing clockC8 none stC8).2 ⟨"AuthFailure"⟩ rfl
  exact ⟨h.1, h.2.1⟩

/-- C10: the success response reflects discovery counts, not deletion
outcomes — when every volume and snapshot delete call raises a
ClientError, lambda_handler still returns statusCode 200 with a body
reporting the candidate-list lengths computed before deletion, while
nothing was actually deleted. -/
theorem C10_reports_discovery_counts :
    ∀ (clock : Clock) (ev : Option Int) (st : EC2State)
        (vols : List VolRec) (i : Nat) (snaps : List SnapRec) (j : Nat),
      get_volumes_to_delete EBSCleaner.init clock 0 st = .ok (vols, i) →
      get_snapshots_to_delete EBSCleaner.init clock i st = .ok (snaps, j) →
      (∀ id, (st.deleteVolumeResult id).isSome) →
      (∀ id, (st.deleteSnapshotResult id).isSome) →
      (lambda_handler clock ev st).outcome =
        .ok ⟨200, summaryBody vols.length snaps.length⟩ ∧
      (lambda_handler clock ev st).deletedVolumes = [] ∧
      (lambda_handler clock ev st).deletedSnapshots = [] := by
  intro clock ev st vols i snaps j h1 h2 hv hs
  rw [lambda_handler_ok_eq clock ev st vols i snaps j h1 h2]
  refine ⟨rfl, ?_, ?_⟩
  · rw [delete_volumes_fst]
    have hnil : vols.filter
        (fun r => (st.deleteVolumeResult r.volumeId).isNone) = [] := by
      rw [List.filter_eq_nil_iff]
      intro r _
      cases hres : st.deleteVolumeResult r.volumeId with
      | none =>
        have hcontra := hv r.volumeId
        rw [hres] at hcontra
        exact absurd hcontra (by simp)
      | some e => simp [hres]
    simp [hnil]
  · rw [delete_snapshots_deleted]
    have hnil : snaps.filter
        (fun s => (st.deleteSnapshotResult s.snapshotId).isNone) = [] := by
      rw [List.filter_eq_nil_iff]
      intro s _
      cases hres : st.deleteSnapshotResult s.snapshotId with
      | none =>
        have hcontra := hs s.snapshotId
        rw [hres] at hcontra
        exact absurd hcontra (by simp)
      | some e => simp [hres]
    simp [hnil]

/-- Witness for C10: the run reports 1 volume and 1 snapshot processed
with status 200 although every deletion failed. -/
theorem C10_witness :
    (lambda_handler clockC10 none stC10).outcome =
      .ok ⟨200, summaryBody 1 1⟩ ∧
    (lambda_handler clockC10 none stC10).deletedVolumes = [] ∧
    (lambda_handler clockC10 none stC10).deletedSnapshots = [] :=
  C10_reports_discovery_counts clockC10 none stC10
    [⟨"vol-x", 30, 11⟩] 2 [⟨"snap-x", none, 11, "No description"⟩] 4
    rfl rfl (fun _ => rfl) (fun _ => rfl)
